import Mathlib

/-!
Verification development for the gof-cdk gift-code redemption tool.

The definitions below are a shallow embedding of the TypeScript sources:
`src/types.ts` (data model), `src/utils.ts` (request signing), `src/api.ts`
(response classification, the timeout bonus retry of `processGiftCode`, and
`processSingleCode`), and `src/main.ts` (task generation, batch scheduling,
and statistics classification).  External capabilities (the MD5 hash from
CryptoJS, `JSON.stringify` for object-valued fields, the network transport
and the OCR solver) are passed in as function parameters or outcome oracles,
mirroring how the code treats them as black boxes.
-/

namespace GofCdk

/-- Envelope of every API response: `code`, `msg`, `data`, `err_code`
(`src/types.ts`, `ApiResponse`).  The `data` payload is irrelevant to the
properties below and is omitted. -/
structure ApiResponse where
  code : Int
  msg : String
  err_code : Int
deriving Repr, DecidableEq

/-- Result of processing one gift code for one player
(`src/types.ts`, `GiftCodeResult`). -/
structure GiftCodeResult where
  success : Bool
  message : String
  cdk : String
  fid : String
deriving Repr, DecidableEq

/-- One (player, code) task (`src/types.ts`, `ProcessTask`). -/
structure ProcessTask where
  fid : String
  cdk : String
deriving Repr, DecidableEq

/-- Player metadata fetched per task (`src/types.ts`, `PlayerInfo`);
only the fields used by the workflow are kept. -/
structure PlayerInfo where
  fid : Int
  nickname : String
  kid : Int
deriving Repr, DecidableEq

/-- Comparison of two strings as lists of characters by code point, the way
the JavaScript default `Array.prototype.sort` comparator orders the key
strings in `Object.keys(inputObject).sort()` (`src/utils.ts`).  Returns
`true` when the first list is less than or equal to the second. -/
def charListLe : List Char → List Char → Bool
  | [], _ => true
  | _ :: _, [] => false
  | a :: as, b :: bs =>
    if a.toNat < b.toNat then true
    else if b.toNat < a.toNat then false
    else charListLe as bs

/-- String comparison used for sorting object keys, see `charListLe`. -/
def jsStrLe (s t : String) : Bool := charListLe s.data t.data

/-- A JavaScript field value as it can occur in an `InputObject`
(`src/types.ts`): a string, a number, or an object value of some type `ω`
(arbitrary JSON-serializable data). -/
inductive JsValue (ω : Type) where
  | vstr : String → JsValue ω
  | vnum : Int → JsValue ω
  | vobj : ω → JsValue ω
deriving Repr, DecidableEq

/-- String conversion of a field value as performed in `generateSignedObject`
(`src/utils.ts`): object-typed values go through `JSON.stringify` (the
external `stringify` parameter), strings and numbers are interpolated
directly. -/
def jsValueToString {ω : Type} (stringify : ω → String) : JsValue ω → String
  | .vstr s => s
  | .vnum n => toString n
  | .vobj o => stringify o

/-- Key-order relation on fields: compare the key strings with the JS sort
comparator. -/
abbrev keyLe {ω : Type} (p q : String × JsValue ω) : Prop :=
  jsStrLe p.1 q.1 = true

/-- Strict key order: keys are ordered and distinct. -/
abbrev keyLt {ω : Type} (p q : String × JsValue ω) : Prop :=
  keyLe p q ∧ p.1 ≠ q.1

instance {ω : Type} : DecidableRel (keyLe (ω := ω)) :=
  fun _ _ => instDecidableEqBool _ _

/-- Sorting the fields of the input object by key, the embedding of
`Object.keys(inputObject).sort()` followed by the per-key lookup in
`generateSignedObject` (`src/utils.ts`). -/
def sortByKey {ω : Type} (fields : List (String × JsValue ω)) :
    List (String × JsValue ω) :=
  List.insertionSort keyLe fields

/-- The canonical query string of `generateSignedObject` (`src/utils.ts`):
fields sorted by key, rendered as `key=value` and joined with `&`. -/
def canonicalQueryString {ω : Type} (stringify : ω → String)
    (fields : List (String × JsValue ω)) : String :=
  String.intercalate "&"
    ((sortByKey fields).map (fun kv => kv.1 ++ "=" ++ jsValueToString stringify kv.2))

/-- A signed request payload: the `sign` field plus the original input
fields (`src/utils.ts`, return value of `generateSignedObject`). -/
structure SignedObject (ω : Type) where
  sign : String
  fields : List (String × JsValue ω)
deriving Repr, DecidableEq

/-- Embedding of `generateSignedObject` (`src/utils.ts`): the signature is
the hash (MD5 in the source, passed here as the external `hash` parameter)
of the canonical query string concatenated with the salt; the original
fields are kept unchanged next to `sign`. -/
def generateSignedObject {ω : Type} (hash : String → String) (stringify : ω → String)
    (inputObject : List (String × JsValue ω)) (signSalt : String) : SignedObject ω :=
  { sign := hash (canonicalQueryString stringify inputObject ++ signSalt),
    fields := inputObject }

/-- The `errorMap` of `processGiftCode` (`src/api.ts`): user-facing messages
for the known business error codes 40004, 40007 and 40008. -/
def errorMap (errCode : Int) : Option String :=
  if errCode = 40004 then some "服务器处理超时，请稍后重试"
  else if errCode = 40007 then some "超出兑换时间，无法领取"
  else if errCode = 40008 then some "已领过该礼包，不能重复领取"
  else none

/-- Classification of a redeem-code response envelope, as performed in both
the first-attempt branch and the timeout-retry branch of `processGiftCode`
(`src/api.ts`): `code == 0` or `err_code == 40008` is a success, with the
dedicated already-redeemed message for 40008; otherwise a failure whose
message is the mapped error text, falling back to the server message. -/
def classifyGiftResponse (fid cdk : String) (resp : ApiResponse) : GiftCodeResult :=
  if resp.code = 0 ∨ resp.err_code = 40008 then
    { success := true,
      message := if resp.err_code = 40008 then "已领过该礼包" else "已成功领取",
      cdk := cdk, fid := fid }
  else
    { success := false,
      message := (errorMap resp.err_code).getD resp.msg,
      cdk := cdk, fid := fid }

/-- Outcome of one `requestWithRetry` call to the redeem endpoint as observed
by `processGiftCode` (`src/api.ts`): a response envelope, an axios timeout
error (`ECONNABORTED`), or any other thrown error with its message. -/
inductive SubmitOutcome where
  | ok : ApiResponse → SubmitOutcome
  | timeoutErr : SubmitOutcome
  | otherErr : String → SubmitOutcome
deriving Repr, DecidableEq

/-- The signed payload of one redeem-code request: the input object
`{ fid, cdk, time }` signed with the salt (`src/api.ts`, `processGiftCode`). -/
def giftCodePayload {ω : Type} (hash : String → String) (stringify : ω → String)
    (salt fid cdk : String) (time : Int) : SignedObject ω :=
  generateSignedObject hash stringify
    [("fid", JsValue.vstr fid), ("cdk", JsValue.vstr cdk), ("time", JsValue.vnum time)] salt

/-- Trace of one `processGiftCode` call: the returned result and the signed
payloads submitted to the redeem endpoint, in order. -/
structure GiftTrace (ω : Type) where
  result : GiftCodeResult
  sent : List (SignedObject ω)
deriving Repr, DecidableEq

/-- Embedding of `processGiftCode` (`src/api.ts`).  `now i` is the value of
`Date.now()` at the `i`-th payload construction, `submit i` the outcome of
the `i`-th call to `requestWithRetry`.  A successful call is classified by
`classifyGiftResponse`.  A timeout error triggers exactly one retry with a
freshly built payload (new timestamp, new signature); if the retry throws
anything, the result is the fixed retry-failure message.  Any other error
becomes a failure carrying the error message. -/
def processGiftCode {ω : Type} (hash : String → String) (stringify : ω → String)
    (salt fid cdk : String) (now : Nat → Int) (submit : Nat → SubmitOutcome) :
    GiftTrace ω :=
  let p0 := giftCodePayload hash stringify salt fid cdk (now 0)
  match submit 0 with
  | .ok resp => { result := classifyGiftResponse fid cdk resp, sent := [p0] }
  | .timeoutErr =>
    let p1 := giftCodePayload hash stringify salt fid cdk (now 1)
    match submit 1 with
    | .ok resp => { result := classifyGiftResponse fid cdk resp, sent := [p0, p1] }
    | .timeoutErr =>
      { result := { success := false, message := "重试后仍然失败", cdk := cdk, fid := fid },
        sent := [p0, p1] }
    | .otherErr _ =>
      { result := { success := false, message := "重试后仍然失败", cdk := cdk, fid := fid },
        sent := [p0, p1] }
  | .otherErr m =>
    { result := { success := false, message := m, cdk := cdk, fid := fid }, sent := [p0] }

/-- Substring test on lists of characters, the embedding of the JavaScript
`String.prototype.includes` used for statistics classification
(`src/main.ts`). -/
def containsSubAux (needle : List Char) : List Char → Bool
  | [] => needle.isEmpty
  | c :: rest => needle.isPrefixOf (c :: rest) || containsSubAux needle rest

/-- JavaScript `s.includes(needle)`. -/
def strIncludes (s needle : String) : Bool := containsSubAux needle.data s.data

/-- The task generator (`src/main.ts`, `processGiftCodes`):
`fids.flatMap(fid => cdks.map(cdk => ({ fid, cdk })))`. -/
def generateTasks (cdks fids : List String) : List ProcessTask :=
  fids.flatMap (fun fid => cdks.map (fun cdk => { fid := fid, cdk := cdk }))

/-- The running counters of `processGiftCodes` (`src/main.ts`,
`ResultStats`). -/
structure ResultStats where
  success : Nat
  failure : Nat
  timeout : Nat
  alreadyClaimed : Nat
deriving Repr, DecidableEq

/-- The all-zero initial counters. -/
def emptyStats : ResultStats :=
  { success := 0, failure := 0, timeout := 0, alreadyClaimed := 0 }

/-- Total of the four counters. -/
def statsTotal (s : ResultStats) : Nat :=
  s.success + s.alreadyClaimed + s.timeout + s.failure

/-- The statistics bucket a result is classified into. -/
inductive StatBucket where
  | success : StatBucket
  | alreadyClaimed : StatBucket
  | timeout : StatBucket
  | failure : StatBucket
deriving Repr, DecidableEq

/-- Increment the counter selected by a bucket. -/
def bumpStats (s : ResultStats) : StatBucket → ResultStats
  | .success => { s with success := s.success + 1 }
  | .alreadyClaimed => { s with alreadyClaimed := s.alreadyClaimed + 1 }
  | .timeout => { s with timeout := s.timeout + 1 }
  | .failure => { s with failure := s.failure + 1 }

/-- Classification of a settled result in the batched-concurrent scheduler
(`src/main.ts`, lines 70-82): successes split on the literal marker
`已领过`, failures split on the literal marker `TIMEOUT`. -/
def classifyBatched (r : GiftCodeResult) : StatBucket :=
  if r.success then
    if strIncludes r.message "已领过" then .alreadyClaimed else .success
  else
    if strIncludes r.message "TIMEOUT" then .timeout else .failure

/-- Classification of a result in the sequential scheduler (the sequential
`processGiftCodes`): failures additionally check the marker `超时`. -/
def classifySequential (r : GiftCodeResult) : StatBucket :=
  if r.success then
    if strIncludes r.message "已领过" then .alreadyClaimed else .success
  else
    if strIncludes r.message "TIMEOUT" || strIncludes r.message "超时" then .timeout
    else .failure

/-- The settled outcome of one task's `processSingleCode` promise as seen by
the scheduler: fulfilled with a result, or rejected with a thrown reason. -/
inductive SettledOutcome where
  | fulfilled : GiftCodeResult → SettledOutcome
  | rejected : String → SettledOutcome
deriving Repr, DecidableEq

/-- The synthesized failure result the scheduler pushes for a rejected task
(`src/main.ts`): message `处理失败: <reason>`. -/
def rejectedResult (task : ProcessTask) (reason : String) : GiftCodeResult :=
  { success := false, message := "处理失败: " ++ reason, cdk := task.cdk, fid := task.fid }

/-- Accumulation step of the schedulers: a fulfilled task pushes its result
and bumps the counter of its bucket; a rejected task pushes the synthesized
failure result and bumps the failure counter. -/
def settleStep (classify : GiftCodeResult → StatBucket)
    (acc : List GiftCodeResult × ResultStats) (x : ProcessTask × SettledOutcome) :
    List GiftCodeResult × ResultStats :=
  match x.2 with
  | .fulfilled r => (acc.1 ++ [r], bumpStats acc.2 (classify r))
  | .rejected reason => (acc.1 ++ [rejectedResult x.1 reason], bumpStats acc.2 .failure)

/-- Fuel-driven slicing into batches, the embedding of the loop
`for (let i = 0; i < tasks.length; i += batchSize) tasks.slice(i, i + batchSize)`
(`src/main.ts`).  The fuel starts at the list length; with a positive batch
size it never runs out before the list does. -/
def chunksGo {α : Type} (n : Nat) : Nat → List α → List (List α)
  | _, [] => []
  | 0, l => [l]
  | fuel + 1, x :: xs => ((x :: xs).take n) :: chunksGo n fuel ((x :: xs).drop n)

/-- Slice a task list into batches of size `n`. -/
def chunks {α : Type} (n : Nat) (l : List α) : List (List α) :=
  chunksGo n l.length l

/-- Embedding of the batched-concurrent `processGiftCodes` (`src/main.ts`):
slice the task list into batches, settle every task of a batch (the
`Promise.allSettled` outcomes are given by the `outcome` oracle, in task
order), and accumulate results and counters with the batched classifier. -/
def processGiftCodesBatched (outcome : ProcessTask → SettledOutcome)
    (batchSize : Nat) (tasks : List ProcessTask) :
    List GiftCodeResult × ResultStats :=
  (chunks batchSize tasks).foldl
    (fun acc batch => (batch.map (fun t => (t, outcome t))).foldl (settleStep classifyBatched) acc)
    ([], emptyStats)

/-- Embedding of the sequential `processGiftCodes`: tasks settle one at a
time in generator order, accumulating with the sequential classifier.  A
thrown `processSingleCode` is a rejected outcome. -/
def processGiftCodesSequential (outcome : ProcessTask → SettledOutcome)
    (tasks : List ProcessTask) : List GiftCodeResult × ResultStats :=
  (tasks.map (fun t => (t, outcome t))).foldl (settleStep classifySequential) ([], emptyStats)

/-- A character in the CJK Unified Ideographs range, the class the captcha
format validation rejects (README: 长度不为4或包含中文). -/
def isCJKChar (c : Char) : Bool :=
  decide (0x4E00 ≤ c.toNat) && decide (c.toNat ≤ 0x9FA5)

/-- Captcha format validation: exactly 4 characters and no CJK character
(spec §4.2 / glossary; README 失败任务处理). -/
def validCaptchaFormat (text : String) : Bool :=
  text.length == 4 && !(text.data.any isCJKChar)

/-- Environment of one redemption workflow run: the resolved player (or
`none` when the metadata fetch failed or returned null), the OCR text
produced at the `i`-th captcha acquisition, and the response envelope of the
`i`-th submission. -/
structure WorkflowEnv where
  player : Option PlayerInfo
  ocr : Nat → String
  submitResp : Nat → ApiResponse

/-- Trace of one workflow run: the terminal result, the captcha texts
actually submitted (in order), the tasks appended to the Failure Store, and
the number of captcha-loop iterations consumed. -/
structure WorkflowTrace where
  result : GiftCodeResult
  submitted : List String
  persisted : List ProcessTask
  attempts : Nat
deriving Repr, DecidableEq

/-- Modelled from the spec: the Failure Store `append` operation of the
workflow's persistence module, which is not among the provided sources (its
caller imports `removeSuccessfulTask` from `./api`); spec §4.4: parse the
daily file as a list and rewrite it with the new task appended. -/
def appendToStore (file : List ProcessTask) (task : ProcessTask) : List ProcessTask :=
  file ++ [task]

/-- Modelled from the spec: the captcha-acquire / validate / submit loop of
the full `processSingleCode` workflow (spec §4.2), whose implementation is
not among the provided sources (only its caller is).  Iteration `i`: solve a
fresh captcha (`env.ocr i`); if the text fails format validation, consume
one retry and loop; otherwise submit it and classify the response with
`classifyGiftResponse` (the classification implemented in `src/api.ts`):
success terminates, a business failure consumes one retry and loops.
Exhausting the retry budget appends the task to the Failure Store once and
terminates failed. -/
def redeemLoop (task : ProcessTask) (env : WorkflowEnv) : Nat → Nat → WorkflowTrace
  | 0, _ =>
    { result := { success := false, message := "验证码错误或领取失败，重试次数已用尽",
                  cdk := task.cdk, fid := task.fid },
      submitted := [], persisted := [task], attempts := 0 }
  | fuel + 1, i =>
    let text := env.ocr i
    if validCaptchaFormat text then
      let r := classifyGiftResponse task.fid task.cdk (env.submitResp i)
      if r.success then
        { result := r, submitted := [text], persisted := [], attempts := 1 }
      else
        let rest := redeemLoop task env fuel (i + 1)
        { result := rest.result, submitted := text :: rest.submitted,
          persisted := rest.persisted, attempts := rest.attempts + 1 }
    else
      let rest := redeemLoop task env fuel (i + 1)
      { result := rest.result, submitted := rest.submitted,
        persisted := rest.persisted, attempts := rest.attempts + 1 }

/-- Modelled from the spec: the full per-task workflow `processSingleCode`
(spec §4.2).  Account resolution comes first, exactly as in the provided
`src/api.ts` (lines 339-348): a null player is an immediate terminal failure
with message 无法获取玩家信息, with no captcha acquisition, no submission,
no retry and no Failure Store write.  Otherwise the captcha/submit loop runs
with the `taskMaxRetries` budget (default 3). -/
def processSingleCode (task : ProcessTask) (env : WorkflowEnv)
    (taskMaxRetries : Nat) : WorkflowTrace :=
  match env.player with
  | none =>
    { result := { success := false, message := "无法获取玩家信息",
                  cdk := task.cdk, fid := task.fid },
      submitted := [], persisted := [], attempts := 0 }
  | some _ => redeemLoop task env taskMaxRetries 0

end GofCdk

namespace GofCdk

/-! ### Order facts about the key comparator -/

theorem uInt32_eq_of_toNat_eq {a b : UInt32} (h : a.toNat = b.toNat) : a = b := by
  cases a; cases b
  congr 1
  exact BitVec.eq_of_toNat_eq h

theorem char_eq_of_toNat_eq {a b : Char} (h : a.toNat = b.toNat) : a = b := by
  cases a; cases b
  congr 1
  exact uInt32_eq_of_toNat_eq h

theorem string_eq_of_data_eq {s t : String} (h : s.data = t.data) : s = t := by
  cases s; cases t
  congr 1

theorem charListLe_total (a : List Char) :
    ∀ b : List Char, charListLe a b = true ∨ charListLe b a = true := by
  induction a with
  | nil => intro b; left; rfl
  | cons a as ih =>
    intro b
    cases b with
    | nil => right; rfl
    | cons b bs =>
      simp only [charListLe]
      by_cases hab : a.toNat < b.toNat
      · left; simp [hab]
      · by_cases hba : b.toNat < a.toNat
        · right; simp [hba]
        · simp only [if_neg hab, if_neg hba]
          exact ih bs

theorem charListLe_trans (a : List Char) :
    ∀ b c : List Char, charListLe a b = true → charListLe b c = true →
      charListLe a c = true := by
  induction a with
  | nil => intro b c _ _; rfl
  | cons a as ih =>
    intro b c h₁ h₂
    cases b with
    | nil => simp [charListLe] at h₁
    | cons b bs =>
      cases c with
      | nil => simp [charListLe] at h₂
      | cons c cs =>
        simp only [charListLe] at h₁ h₂ ⊢
        by_cases hab : a.toNat < b.toNat <;> by_cases hba : b.toNat < a.toNat <;>
          by_cases hbc : b.toNat < c.toNat <;> by_cases hcb : c.toNat < b.toNat <;>
          simp only [if_pos, if_neg, hab, hba, hbc, hcb, if_true, if_false] at h₁ h₂ ⊢ <;>
          first
          | omega
          | (have hac : ¬ a.toNat < c.toNat := by omega
             have hca : ¬ c.toNat < a.toNat := by omega
             simp only [if_neg hac, if_neg hca]
             exact ih bs cs h₁ h₂)
          | (have hac : a.toNat < c.toNat := by omega
             simp [hac])
          | simp_all

theorem charListLe_antisymm (a : List Char) :
    ∀ b : List Char, charListLe a b = true → charListLe b a = true → a = b := by
  induction a with
  | nil =>
    intro b h₁ h₂
    cases b with
    | nil => rfl
    | cons b bs => simp [charListLe] at h₂
  | cons a as ih =>
    intro b h₁ h₂
    cases b with
    | nil => simp [charListLe] at h₁
    | cons b bs =>
      simp only [charListLe] at h₁ h₂
      by_cases hab : a.toNat < b.toNat
      · rw [if_neg (show ¬ b.toNat < a.toNat by omega), if_pos hab] at h₂
        exact absurd h₂ (by decide)
      · by_cases hba : b.toNat < a.toNat
        · rw [if_neg hab, if_pos hba] at h₁
          exact absurd h₁ (by decide)
        · rw [if_neg hab, if_neg hba] at h₁
          rw [if_neg hba, if_neg hab] at h₂
          rw [char_eq_of_toNat_eq (show a.toNat = b.toNat by omega), ih bs h₁ h₂]

theorem jsStrLe_total (s t : String) : jsStrLe s t = true ∨ jsStrLe t s = true :=
  charListLe_total s.data t.data

theorem jsStrLe_trans {s t u : String} (h₁ : jsStrLe s t = true)
    (h₂ : jsStrLe t u = true) : jsStrLe s u = true :=
  charListLe_trans s.data t.data u.data h₁ h₂

theorem jsStrLe_antisymm {s t : String} (h₁ : jsStrLe s t = true)
    (h₂ : jsStrLe t s = true) : s = t :=
  string_eq_of_data_eq (charListLe_antisymm s.data t.data h₁ h₂)

instance {ω : Type} : IsTotal (String × JsValue ω) keyLe :=
  ⟨fun p q => jsStrLe_total p.1 q.1⟩

instance {ω : Type} : IsTrans (String × JsValue ω) keyLe :=
  ⟨fun _ _ _ h₁ h₂ => jsStrLe_trans h₁ h₂⟩

instance {ω : Type} : IsAntisymm (String × JsValue ω) keyLt :=
  ⟨fun _ _ h₁ h₂ => absurd (jsStrLe_antisymm h₁.1 h₂.1) h₁.2⟩

theorem sortByKey_perm {ω : Type} (l : List (String × JsValue ω)) :
    List.Perm (sortByKey l) l :=
  List.perm_insertionSort keyLe l

theorem sortByKey_sorted {ω : Type} (l : List (String × JsValue ω)) :
    List.Sorted keyLe (sortByKey l) :=
  List.sorted_insertionSort keyLe l

theorem sortByKey_pairwise_lt {ω : Type} (l : List (String × JsValue ω))
    (hnodup : (l.map Prod.fst).Nodup) : List.Pairwise keyLt (sortByKey l) := by
  have hnd : ((sortByKey l).map Prod.fst).Nodup :=
    (((sortByKey_perm l).map Prod.fst).nodup_iff).mpr hnodup
  have hne : List.Pairwise (fun p q : String × JsValue ω => p.1 ≠ q.1) (sortByKey l) :=
    List.pairwise_map.mp hnd
  exact ((sortByKey_sorted l).and hne).imp (fun h => ⟨h.1, h.2⟩)

theorem sortByKey_eq_of_perm {ω : Type} {l₁ l₂ : List (String × JsValue ω)}
    (hperm : List.Perm l₁ l₂) (hnodup : (l₁.map Prod.fst).Nodup) :
    sortByKey l₁ = sortByKey l₂ := by
  have hnodup₂ : (l₂.map Prod.fst).Nodup := ((hperm.map Prod.fst).nodup_iff).mp hnodup
  exact List.eq_of_perm_of_sorted
    ((sortByKey_perm l₁).trans (hperm.trans (sortByKey_perm l₂).symm))
    (sortByKey_pairwise_lt l₁ hnodup) (sortByKey_pairwise_lt l₂ hnodup₂)

end GofCdk

namespace GofCdk

/-! ### Claim theorems: request signing -/

/-- C5: for every input object and salt, `generateSignedObject` computes
`sign = hash(canonical_string ++ salt)` where the canonical string is the
fields sorted by key lexicographically, joined as `key=value` pairs with
`&`, object-valued fields JSON-stringified first; in particular the fields
`fid="1", time=1000` with salt `"s"` hash the literal string
`"fid=1&time=1000" ++ "s"` (whatever the field order), an object-valued
field is rendered through `stringify`, and the signed payload keeps the
original fields next to `sign`. -/
theorem generateSignedObject_canonical_string {ω : Type}
    (hash : String → String) (stringify : ω → String) (o : ω) :
    (∀ (fields : List (String × JsValue ω)) (salt : String),
      (generateSignedObject hash stringify fields salt).sign
        = hash (canonicalQueryString stringify fields ++ salt) ∧
      (generateSignedObject hash stringify fields salt).fields = fields) ∧
    (generateSignedObject hash stringify
        [("fid", JsValue.vstr "1"), ("time", JsValue.vnum 1000)] "s").sign
      = hash ("fid=1&time=1000" ++ "s") ∧
    (generateSignedObject hash stringify
        [("time", JsValue.vnum 1000), ("fid", JsValue.vstr "1")] "s").sign
      = hash ("fid=1&time=1000" ++ "s") ∧
    (generateSignedObject hash stringify
        [("b", JsValue.vobj o), ("a", JsValue.vstr "x")] "t").sign
      = hash ("a=x&b=" ++ stringify o ++ "t") := by
  refine ⟨fun fields salt => ⟨rfl, rfl⟩, by congr 1, by congr 1, ?_⟩
  show hash (String.intercalate "&" ["a" ++ "=" ++ "x", "b" ++ "=" ++ stringify o] ++ "t")
    = hash ("a=x&b=" ++ stringify o ++ "t")
  congr 1

/-- C6: two input objects holding the same fields in any order produce the
same signature for every salt: the canonical string only depends on the
key-sorted fields, which a permutation with distinct keys leaves unchanged. -/
theorem generateSignedObject_order_independent {ω : Type}
    (hash : String → String) (stringify : ω → String) (salt : String)
    (l₁ l₂ : List (String × JsValue ω))
    (hperm : List.Perm l₁ l₂) (hnodup : (l₁.map Prod.fst).Nodup) :
    (generateSignedObject hash stringify l₁ salt).sign
      = (generateSignedObject hash stringify l₂ salt).sign := by
  show hash (canonicalQueryString stringify l₁ ++ salt)
    = hash (canonicalQueryString stringify l₂ ++ salt)
  rw [canonicalQueryString, canonicalQueryString, sortByKey_eq_of_perm hperm hnodup]

/-- Witness for C6 at the spec's example: sign of the fields b=2, a=1 equals
the sign of a=1, b=2. -/
theorem generateSignedObject_order_independent_witness :
    (generateSignedObject (ω := Unit) (fun s => s) (fun _ => "")
        [("b", JsValue.vnum 2), ("a", JsValue.vnum 1)] "salt").sign
      = (generateSignedObject (ω := Unit) (fun s => s) (fun _ => "")
        [("a", JsValue.vnum 1), ("b", JsValue.vnum 2)] "salt").sign :=
  generateSignedObject_order_independent (fun s => s) (fun _ => "") "salt"
    [("b", JsValue.vnum 2), ("a", JsValue.vnum 1)]
    [("a", JsValue.vnum 1), ("b", JsValue.vnum 2)] (by decide) (by decide)

/-! ### Claim theorems: processGiftCode (redeem call) -/

/-- C1: for every envelope returned by the redeem-code call (first attempt
or timeout retry), `err_code = 40008` yields `success = true` with the
distinct already-redeemed message 已领过该礼包 regardless of `code`, and
`code = 0` with `err_code ≠ 40008` yields `success = true` with the plain
success message 已成功领取. -/
theorem err40008_classified_as_already_redeemed {ω : Type}
    (hash : String → String) (stringify : ω → String) (salt fid cdk : String)
    (now : Nat → Int) (submit : Nat → SubmitOutcome) (resp : ApiResponse)
    (hresp : submit 0 = SubmitOutcome.ok resp ∨
      (submit 0 = SubmitOutcome.timeoutErr ∧ submit 1 = SubmitOutcome.ok resp)) :
    (resp.err_code = 40008 →
      (processGiftCode hash stringify salt fid cdk now submit).result.success = true ∧
      (processGiftCode hash stringify salt fid cdk now submit).result.message
        = "已领过该礼包") ∧
    (resp.code = 0 → resp.err_code ≠ 40008 →
      (processGiftCode hash stringify salt fid cdk now submit).result.success = true ∧
      (processGiftCode hash stringify salt fid cdk now submit).result.message
        = "已成功领取") := by
  have hres : (processGiftCode hash stringify salt fid cdk now submit).result
      = classifyGiftResponse fid cdk resp := by
    rcases hresp with h | ⟨h0, h1⟩
    · simp [processGiftCode, h]
    · simp [processGiftCode, h0, h1]
  rw [hres]
  constructor
  · intro h40008
    simp [classifyGiftResponse, h40008]
  · intro hcode hne
    simp [classifyGiftResponse, hcode, hne]

/-- Witness for C1: a non-zero transport code together with
`err_code = 40008` still comes back successful with the already-redeemed
message. -/
theorem err40008_classified_as_already_redeemed_witness :
    (processGiftCode (ω := Unit) (fun s => s) (fun _ => "") "x" "1" "C" (fun _ => 0)
        (fun _ => SubmitOutcome.ok ⟨1, "m", 40008⟩)).result.success = true ∧
    (processGiftCode (ω := Unit) (fun s => s) (fun _ => "") "x" "1" "C" (fun _ => 0)
        (fun _ => SubmitOutcome.ok ⟨1, "m", 40008⟩)).result.message = "已领过该礼包" :=
  (err40008_classified_as_already_redeemed (fun s => s) (fun _ => "") "x" "1" "C"
    (fun _ => 0) (fun _ => SubmitOutcome.ok ⟨1, "m", 40008⟩) ⟨1, "m", 40008⟩
    (Or.inl rfl)).1 rfl

/-- C7: when the first redeem submission fails with a transport timeout,
`processGiftCode` sends exactly one bonus retry, whose payload is rebuilt
from the fresh timestamp `now 1` (hence a fresh signature), and nothing
more; if that retry also fails (any thrown error), the result is the fixed
standard failure 重试后仍然失败. -/
theorem timeout_bonus_retry_once {ω : Type}
    (hash : String → String) (stringify : ω → String) (salt fid cdk : String)
    (now : Nat → Int) (submit : Nat → SubmitOutcome)
    (h0 : submit 0 = SubmitOutcome.timeoutErr) :
    (processGiftCode hash stringify salt fid cdk now submit).sent
      = [giftCodePayload hash stringify salt fid cdk (now 0),
         giftCodePayload hash stringify salt fid cdk (now 1)] ∧
    ((∀ resp, submit 1 ≠ SubmitOutcome.ok resp) →
      (processGiftCode hash stringify salt fid cdk now submit).result
        = { success := false, message := "重试后仍然失败", cdk := cdk, fid := fid }) := by
  cases h1 : submit 1 with
  | ok resp =>
    exact ⟨by simp [processGiftCode, h0, h1], fun hno => absurd rfl (hno resp)⟩
  | timeoutErr =>
    exact ⟨by simp [processGiftCode, h0, h1], fun _ => by simp [processGiftCode, h0, h1]⟩
  | otherErr m =>
    exact ⟨by simp [processGiftCode, h0, h1], fun _ => by simp [processGiftCode, h0, h1]⟩

/-- Witness for C7: both submissions time out; exactly two payloads are
sent and the result is the standard retry failure. -/
theorem timeout_bonus_retry_once_witness :
    (processGiftCode (ω := Unit) (fun s => s) (fun _ => "") "x" "1" "C"
        (fun n => Int.ofNat n) (fun _ => SubmitOutcome.timeoutErr)).sent
      = [giftCodePayload (fun s => s) (fun _ => "") "x" "1" "C" (Int.ofNat 0),
         giftCodePayload (fun s => s) (fun _ => "") "x" "1" "C" (Int.ofNat 1)] ∧
    (processGiftCode (ω := Unit) (fun s => s) (fun _ => "") "x" "1" "C"
        (fun n => Int.ofNat n) (fun _ => SubmitOutcome.timeoutErr)).result
      = { success := false, message := "重试后仍然失败", cdk := "C", fid := "1" } := by
  have h := timeout_bonus_retry_once (ω := Unit) (fun s => s) (fun _ => "") "x" "1" "C"
    (fun n => Int.ofNat n) (fun _ => SubmitOutcome.timeoutErr) rfl
  exact ⟨h.1, h.2 (fun resp hresp => by cases hresp)⟩

/-! ### Claim theorems: account resolution and stats classification -/

/-- C8: a task whose account-metadata fetch yields null fails immediately
with 无法获取玩家信息, with no captcha submission, no task-level retry and
no Failure Store write. -/
theorem account_resolution_failure_terminal (task : ProcessTask) (env : WorkflowEnv)
    (taskMaxRetries : Nat) (h : env.player = none) :
    (processSingleCode task env taskMaxRetries).result
      = { success := false, message := "无法获取玩家信息",
          cdk := task.cdk, fid := task.fid } ∧
    (processSingleCode task env taskMaxRetries).submitted = [] ∧
    (processSingleCode task env taskMaxRetries).persisted = [] ∧
    (processSingleCode task env taskMaxRetries).attempts = 0 := by
  simp [processSingleCode, h]

/-- Witness for C8 at a concrete environment with a failed player fetch. -/
theorem account_resolution_failure_terminal_witness :
    (processSingleCode ⟨"1", "C"⟩
        { player := none, ocr := fun _ => "abcd", submitResp := fun _ => ⟨0, "", 0⟩ }
        3).result
      = { success := false, message := "无法获取玩家信息", cdk := "C", fid := "1" } ∧
    (processSingleCode ⟨"1", "C"⟩
        { player := none, ocr := fun _ => "abcd", submitResp := fun _ => ⟨0, "", 0⟩ }
        3).submitted = [] ∧
    (processSingleCode ⟨"1", "C"⟩
        { player := none, ocr := fun _ => "abcd", submitResp := fun _ => ⟨0, "", 0⟩ }
        3).persisted = [] ∧
    (processSingleCode ⟨"1", "C"⟩
        { player := none, ocr := fun _ => "abcd", submitResp := fun _ => ⟨0, "", 0⟩ }
        3).attempts = 0 :=
  account_resolution_failure_terminal ⟨"1", "C"⟩
    { player := none, ocr := fun _ => "abcd", submitResp := fun _ => ⟨0, "", 0⟩ } 3 rfl

/-- C9: a failed result carrying the mapped business-timeout message for
code 40004 (服务器处理超时，请稍后重试) does not contain the literal
marker TIMEOUT that the batched-concurrent statistics classification
checks, so it is counted in the other-failure bucket, not the timeout
bucket. -/
theorem business_timeout_counted_as_other_failure (fid cdk : String)
    (resp : ApiResponse) (hcode : resp.code ≠ 0) (herr : resp.err_code = 40004) :
    (classifyGiftResponse fid cdk resp).success = false ∧
    (classifyGiftResponse fid cdk resp).message = "服务器处理超时，请稍后重试" ∧
    strIncludes (classifyGiftResponse fid cdk resp).message "TIMEOUT" = false ∧
    classifyBatched (classifyGiftResponse fid cdk resp) = StatBucket.failure := by
  have h8 : resp.err_code ≠ 40008 := by
    rw [herr]; decide
  have hcls : classifyGiftResponse fid cdk resp
      = { success := false, message := "服务器处理超时，请稍后重试",
          cdk := cdk, fid := fid } := by
    simp [classifyGiftResponse, hcode, h8, herr, errorMap]
  have hmark : strIncludes "服务器处理超时，请稍后重试" "TIMEOUT" = false := by decide
  rw [hcls]
  exact ⟨rfl, rfl, hmark, by simp [classifyBatched, hmark]⟩

/-- Witness for C9 at a concrete envelope with `code = 1`,
`err_code = 40004`. -/
theorem business_timeout_counted_as_other_failure_witness :
    (classifyGiftResponse "1" "C" ⟨1, "x", 40004⟩).success = false ∧
    (classifyGiftResponse "1" "C" ⟨1, "x", 40004⟩).message
      = "服务器处理超时，请稍后重试" ∧
    strIncludes (classifyGiftResponse "1" "C" ⟨1, "x", 40004⟩).message "TIMEOUT" = false ∧
    classifyBatched (classifyGiftResponse "1" "C" ⟨1, "x", 40004⟩) = StatBucket.failure :=
  business_timeout_counted_as_other_failure "1" "C" ⟨1, "x", 40004⟩ (by decide) rfl

end GofCdk

namespace GofCdk

/-! ### Workflow loop lemmas (captcha / retry budget) -/

theorem redeemLoop_submitted_valid (task : ProcessTask) (env : WorkflowEnv) :
    ∀ (fuel i : Nat) (s : String), s ∈ (redeemLoop task env fuel i).submitted →
      validCaptchaFormat s = true := by
  intro fuel
  induction fuel with
  | zero =>
    intro i s hs
    simp [redeemLoop] at hs
  | succ fuel ih =>
    intro i s hs
    simp only [redeemLoop] at hs
    by_cases hv : validCaptchaFormat (env.ocr i) = true
    · rw [if_pos hv] at hs
      by_cases hr : (classifyGiftResponse task.fid task.cdk (env.submitResp i)).success = true
      · rw [if_pos hr] at hs
        simp only [List.mem_singleton] at hs
        rw [hs]
        exact hv
      · rw [if_neg hr] at hs
        simp only [List.mem_cons] at hs
        rcases hs with hs | hs
        · rw [hs]; exact hv
        · exact ih (i + 1) s hs
    · rw [if_neg hv] at hs
      exact ih (i + 1) s hs

theorem redeemLoop_attempts_le (task : ProcessTask) (env : WorkflowEnv) :
    ∀ (fuel i : Nat), (redeemLoop task env fuel i).attempts ≤ fuel := by
  intro fuel
  induction fuel with
  | zero => intro i; exact Nat.le_refl 0
  | succ fuel ih =>
    intro i
    simp only [redeemLoop]
    by_cases hv : validCaptchaFormat (env.ocr i) = true
    · rw [if_pos hv]
      by_cases hr : (classifyGiftResponse task.fid task.cdk (env.submitResp i)).success = true
      · rw [if_pos hr]
        exact Nat.succ_le_succ (Nat.zero_le fuel)
      · rw [if_neg hr]
        exact Nat.succ_le_succ (ih (i + 1))
    · rw [if_neg hv]
      exact Nat.succ_le_succ (ih (i + 1))

theorem redeemLoop_all_fail (task : ProcessTask) (env : WorkflowEnv)
    (hfail : ∀ i, validCaptchaFormat (env.ocr i) = false ∨
      (classifyGiftResponse task.fid task.cdk (env.submitResp i)).success = false) :
    ∀ (fuel i : Nat), (redeemLoop task env fuel i).persisted = [task] ∧
      (redeemLoop task env fuel i).result.success = false ∧
      (redeemLoop task env fuel i).attempts = fuel := by
  intro fuel
  induction fuel with
  | zero => intro i; exact ⟨rfl, rfl, rfl⟩
  | succ fuel ih =>
    intro i
    obtain ⟨h1, h2, h3⟩ := ih (i + 1)
    cases hvb : validCaptchaFormat (env.ocr i) with
    | false =>
      simp only [redeemLoop, hvb, Bool.false_eq_true, if_false]
      exact ⟨h1, h2, by rw [h3]⟩
    | true =>
      have hr : (classifyGiftResponse task.fid task.cdk (env.submitResp i)).success = false := by
        rcases hfail i with h | h
        · rw [hvb] at h
          exact absurd h (by decide)
        · exact h
      simp only [redeemLoop, hvb, hr, Bool.false_eq_true, if_false, if_true]
      exact ⟨h1, h2, by rw [h3]⟩

/-! ### Claim theorems: captcha format gate and retry exhaustion -/

/-- C2: every captcha text submitted during the redemption workflow has
exactly 4 characters and contains no CJK character; text failing the format
validation is never submitted. -/
theorem submitted_captcha_always_valid_format (task : ProcessTask) (env : WorkflowEnv)
    (taskMaxRetries : Nat) (s : String)
    (hmem : s ∈ (processSingleCode task env taskMaxRetries).submitted) :
    s.length = 4 ∧ ∀ c ∈ s.data, isCJKChar c = false := by
  have hvalid : validCaptchaFormat s = true := by
    cases hp : env.player with
    | none =>
      simp only [processSingleCode, hp] at hmem
      simp at hmem
    | some p =>
      simp only [processSingleCode, hp] at hmem
      exact redeemLoop_submitted_valid task env taskMaxRetries 0 s hmem
  simp only [validCaptchaFormat, Bool.and_eq_true, beq_iff_eq,
    Bool.not_eq_true', List.any_eq_false, Bool.not_eq_true] at hvalid
  exact ⟨hvalid.1, hvalid.2⟩

/-- Witness for C2: a concrete run submitting the text abcd, which indeed
has 4 non-CJK characters. -/
theorem submitted_captcha_always_valid_format_witness :
    "abcd" ∈ (processSingleCode ⟨"1", "C"⟩
      { player := some ⟨1, "n", 2⟩, ocr := fun _ => "abcd",
        submitResp := fun _ => ⟨0, "", 0⟩ } 3).submitted ∧
    ("abcd".length = 4 ∧ ∀ c ∈ "abcd".data, isCJKChar c = false) :=
  ⟨by decide,
    submitted_captcha_always_valid_format ⟨"1", "C"⟩
      { player := some ⟨1, "n", 2⟩, ocr := fun _ => "abcd",
        submitResp := fun _ => ⟨0, "", 0⟩ } 3 "abcd" (by decide)⟩

/-- C3: a task consumes at most `taskMaxRetries` captcha-loop iterations;
when the account resolves but every attempt fails (invalid captcha or
business failure), the run uses exactly `taskMaxRetries` iterations, the
task is appended to the Failure Store exactly once, and the result reports
failure. -/
theorem task_retry_exhaustion_persists_once (task : ProcessTask) (env : WorkflowEnv)
    (taskMaxRetries : Nat) :
    (processSingleCode task env taskMaxRetries).attempts ≤ taskMaxRetries ∧
    (env.player.isSome = true →
      (∀ i, validCaptchaFormat (env.ocr i) = false ∨
        (classifyGiftResponse task.fid task.cdk (env.submitResp i)).success = false) →
      (processSingleCode task env taskMaxRetries).persisted = [task] ∧
      ((processSingleCode task env taskMaxRetries).persisted.foldl
          appendToStore []).count task = 1 ∧
      (processSingleCode task env taskMaxRetries).result.success = false ∧
      (processSingleCode task env taskMaxRetries).attempts = taskMaxRetries) := by
  constructor
  · cases hp : env.player with
    | none => simp [processSingleCode, hp]
    | some p =>
      simp only [processSingleCode, hp]
      exact redeemLoop_attempts_le task env taskMaxRetries 0
  · intro hsome hfail
    cases hp : env.player with
    | none => rw [hp] at hsome; simp at hsome
    | some p =>
      simp only [processSingleCode, hp]
      obtain ⟨h1, h2, h3⟩ := redeemLoop_all_fail task env hfail taskMaxRetries 0
      refine ⟨h1, ?_, h2, h3⟩
      rw [h1]
      simp [appendToStore]

/-- Witness for C3: OCR that always yields the invalid 3-character text
abc exhausts the default budget of 3 and persists the task once. -/
theorem task_retry_exhaustion_persists_once_witness :
    (processSingleCode ⟨"1", "C"⟩
        { player := some ⟨1, "n", 2⟩, ocr := fun _ => "abc",
          submitResp := fun _ => ⟨0, "", 0⟩ } 3).persisted = [⟨"1", "C"⟩] ∧
    ((processSingleCode ⟨"1", "C"⟩
        { player := some ⟨1, "n", 2⟩, ocr := fun _ => "abc",
          submitResp := fun _ => ⟨0, "", 0⟩ } 3).persisted.foldl
        appendToStore []).count ⟨"1", "C"⟩ = 1 ∧
    (processSingleCode ⟨"1", "C"⟩
        { player := some ⟨1, "n", 2⟩, ocr := fun _ => "abc",
          submitResp := fun _ => ⟨0, "", 0⟩ } 3).result.success = false ∧
    (processSingleCode ⟨"1", "C"⟩
        { player := some ⟨1, "n", 2⟩, ocr := fun _ => "abc",
          submitResp := fun _ => ⟨0, "", 0⟩ } 3).attempts = 3 :=
  (task_retry_exhaustion_persists_once ⟨"1", "C"⟩
      { player := some ⟨1, "n", 2⟩, ocr := fun _ => "abc",
        submitResp := fun _ => ⟨0, "", 0⟩ } 3).2 rfl
    (fun _ => Or.inl (show validCaptchaFormat "abc" = false by decide))

end GofCdk

namespace GofCdk

/-! ### Task generator lemmas -/

theorem generateTasks_nil (cdks : List String) : generateTasks cdks [] = [] := rfl

theorem generateTasks_cons (cdks : List String) (fid : String) (fids : List String) :
    generateTasks cdks (fid :: fids)
      = cdks.map (fun cdk => { fid := fid, cdk := cdk }) ++ generateTasks cdks fids := by
  simp [generateTasks]

theorem generateTasks_length (cdks fids : List String) :
    (generateTasks cdks fids).length = fids.length * cdks.length := by
  induction fids with
  | nil => simp [generateTasks]
  | cons fid fids ih =>
    rw [generateTasks_cons, List.length_append, List.length_map, ih,
      List.length_cons, Nat.succ_mul]
    omega

theorem generateTasks_get (cdks fids : List String) :
    ∀ (i j : Nat) (hi : i < fids.length) (hj : j < cdks.length),
      (generateTasks cdks fids)[i * cdks.length + j]?
        = some { fid := fids.get ⟨i, hi⟩, cdk := cdks.get ⟨j, hj⟩ } := by
  induction fids with
  | nil =>
    intro i j hi _
    exact absurd hi (Nat.not_lt_zero i)
  | cons fid fids ih =>
    intro i j hi hj
    cases i with
    | zero =>
      rw [generateTasks_cons, List.getElem?_append]
      have hlt : 0 * cdks.length + j
          < (cdks.map (fun cdk => ({ fid := fid, cdk := cdk } : ProcessTask))).length := by
        simpa using hj
      rw [if_pos hlt]
      simp only [Nat.zero_mul, Nat.zero_add, List.getElem?_map,
        List.getElem?_eq_getElem hj]
      rfl
    | succ i =>
      rw [generateTasks_cons, List.getElem?_append, Nat.succ_mul]
      have hge : ¬ (i * cdks.length + cdks.length + j
          < (cdks.map (fun cdk => ({ fid := fid, cdk := cdk } : ProcessTask))).length) := by
        simp only [List.length_map]
        omega
      rw [if_neg hge]
      simp only [List.length_map]
      have harith : i * cdks.length + cdks.length + j - cdks.length
          = i * cdks.length + j := by omega
      rw [harith]
      exact ih i j (Nat.lt_of_succ_lt_succ hi) hj

theorem count_pairs_map (t : ProcessTask) (fid : String) (cdks : List String) :
    ((cdks.map (fun cdk => ({ fid := fid, cdk := cdk } : ProcessTask))).count t)
      = if t.fid = fid then cdks.count t.cdk else 0 := by
  obtain ⟨tf, tc⟩ := t
  induction cdks with
  | nil => simp
  | cons c cs ih =>
    simp only [List.map_cons, List.count_cons, ih, List.count_cons]
    by_cases hf : tf = fid
    · subst hf
      simp only [if_pos rfl, beq_iff_eq, ProcessTask.mk.injEq, true_and]
      by_cases hc : c = tc
      · simp [hc]
      · simp [hc]
    · simp only [if_neg hf, beq_iff_eq, ProcessTask.mk.injEq]
      have : ¬ (fid = tf ∧ c = tc) := fun h => hf h.1.symm
      simp [this]

theorem generateTasks_count (cdks fids : List String) (t : ProcessTask) :
    (generateTasks cdks fids).count t = fids.count t.fid * cdks.count t.cdk := by
  induction fids with
  | nil => simp [generateTasks]
  | cons fid fids ih =>
    rw [generateTasks_cons, List.count_append, ih, count_pairs_map, List.count_cons]
    by_cases hf : t.fid = fid
    · rw [if_pos hf, if_pos (by simp [hf] : (fid == t.fid) = true), Nat.add_mul,
        Nat.one_mul]
      omega
    · rw [if_neg hf, if_neg (by simp [Ne.symm hf] : ¬ (fid == t.fid) = true)]
      simp

end GofCdk

namespace GofCdk

/-- C4: the task generator yields exactly `|fids| * |cdks|` tasks in
account-major order (task `i*|cdks| + j` pairs account `i` with code `j`),
with no filtering and no deduplication: the multiplicity of any task is the
product of the multiplicities of its account and its code, so with
duplicate-free inputs every (account, code) pair is covered exactly once. -/
theorem generateTasks_cartesian_product (cdks fids : List String) :
    (generateTasks cdks fids).length = fids.length * cdks.length ∧
    (∀ (i j : Nat) (hi : i < fids.length) (hj : j < cdks.length),
      (generateTasks cdks fids)[i * cdks.length + j]?
        = some { fid := fids.get ⟨i, hi⟩, cdk := cdks.get ⟨j, hj⟩ }) ∧
    (∀ t : ProcessTask,
      (generateTasks cdks fids).count t = fids.count t.fid * cdks.count t.cdk) ∧
    (fids.Nodup → cdks.Nodup → ∀ a ∈ fids, ∀ c ∈ cdks,
      (generateTasks cdks fids).count ⟨a, c⟩ = 1) := by
  refine ⟨generateTasks_length cdks fids, generateTasks_get cdks fids,
    generateTasks_count cdks fids, ?_⟩
  intro hfids hcdks a ha c hc
  rw [generateTasks_count cdks fids ⟨a, c⟩]
  rw [List.count_eq_one_of_mem hfids ha, List.count_eq_one_of_mem hcdks hc]

/-- Witness for C4 with 2 codes and 2 accounts: 4 tasks, the task at index
`1*2+0` pairs the second account with the first code, and the pair
(account 1, code B) occurs exactly once. -/
theorem generateTasks_cartesian_product_witness :
    (generateTasks ["A", "B"] ["1", "2"]).length = 2 * 2 ∧
    (generateTasks ["A", "B"] ["1", "2"])[1 * 2 + 0]? = some ⟨"2", "A"⟩ ∧
    (generateTasks ["A", "B"] ["1", "2"]).count ⟨"1", "B"⟩ = 1 := by
  have h := generateTasks_cartesian_product ["A", "B"] ["1", "2"]
  exact ⟨h.1, h.2.1 1 0 (by decide) (by decide),
    h.2.2.2 (by decide) (by decide) "1" (by decide) "B" (by decide)⟩

/-! ### Scheduler lemmas -/

theorem statsTotal_bump (s : ResultStats) (b : StatBucket) :
    statsTotal (bumpStats s b) = statsTotal s + 1 := by
  cases b <;> simp [bumpStats, statsTotal] <;> omega

theorem settleStep_foldl (classify : GiftCodeResult → StatBucket) :
    ∀ (xs : List (ProcessTask × SettledOutcome)) (acc : List GiftCodeResult × ResultStats),
      (xs.foldl (settleStep classify) acc).1.length = acc.1.length + xs.length ∧
      statsTotal (xs.foldl (settleStep classify) acc).2
        = statsTotal acc.2 + xs.length := by
  intro xs
  induction xs with
  | nil => intro acc; exact ⟨rfl, rfl⟩
  | cons x xs ih =>
    intro acc
    rw [List.foldl_cons]
    obtain ⟨h1, h2⟩ := ih (settleStep classify acc x)
    constructor
    · rw [h1]
      cases hx : x.2 <;> simp [settleStep, hx] <;> omega
    · rw [h2]
      cases hx : x.2 <;> simp [settleStep, hx, statsTotal_bump] <;> omega

theorem chunksGo_flatten {α : Type} (n : Nat) :
    ∀ (fuel : Nat) (l : List α), (chunksGo n fuel l).flatten = l := by
  intro fuel
  induction fuel with
  | zero =>
    intro l
    cases l with
    | nil => rfl
    | cons x xs => simp [chunksGo]
  | succ fuel ih =>
    intro l
    cases l with
    | nil => rfl
    | cons x xs =>
      simp only [chunksGo, List.flatten_cons, ih ((x :: xs).drop n)]
      exact List.take_append_drop n (x :: xs)

theorem foldl_map_flatten {β : Type} (step : β → (ProcessTask × SettledOutcome) → β)
    (pair : ProcessTask → ProcessTask × SettledOutcome) :
    ∀ (L : List (List ProcessTask)) (acc : β),
      L.foldl (fun acc batch => (batch.map pair).foldl step acc) acc
        = (L.flatten.map pair).foldl step acc := by
  intro L
  induction L with
  | nil => intro acc; rfl
  | cons hd tl ih =>
    intro acc
    rw [List.foldl_cons, ih, List.flatten_cons, List.map_append, List.foldl_append]

/-- C10: in both execution modes every generated task contributes exactly
one result to the accumulated sequence (a rejected, thrown task included)
and bumps exactly one of the four counters, so the number of results and
the counter total both equal the number of tasks. -/
theorem every_task_yields_one_result_and_counter
    (outcome : ProcessTask → SettledOutcome) (batchSize : Nat)
    (tasks : List ProcessTask) (hpos : 0 < batchSize) :
    ((processGiftCodesBatched outcome batchSize tasks).1.length = tasks.length ∧
      statsTotal (processGiftCodesBatched outcome batchSize tasks).2 = tasks.length) ∧
    ((processGiftCodesSequential outcome tasks).1.length = tasks.length ∧
      statsTotal (processGiftCodesSequential outcome tasks).2 = tasks.length) := by
  have hseq := settleStep_foldl classifySequential
    (tasks.map (fun t => (t, outcome t))) ([], emptyStats)
  have hbat := settleStep_foldl classifyBatched
    (tasks.map (fun t => (t, outcome t))) ([], emptyStats)
  constructor
  · rw [processGiftCodesBatched,
      foldl_map_flatten (settleStep classifyBatched) (fun t => (t, outcome t)),
      chunks, chunksGo_flatten]
    obtain ⟨h1, h2⟩ := hbat
    rw [h1, h2]
    simp [emptyStats, statsTotal]
  · rw [processGiftCodesSequential]
    obtain ⟨h1, h2⟩ := hseq
    rw [h1, h2]
    simp [emptyStats, statsTotal]

/-- Witness for C10: three tasks in batches of two, one of them rejected;
both modes produce 3 results and counters totaling 3. -/
theorem every_task_yields_one_result_and_counter_witness :
    ((processGiftCodesBatched
        (fun t => if t.cdk = "A" then SettledOutcome.fulfilled ⟨true, "已成功领取", t.cdk, t.fid⟩
                  else SettledOutcome.rejected "boom")
        2 [⟨"1", "A"⟩, ⟨"1", "B"⟩, ⟨"2", "A"⟩]).1.length = 3 ∧
      statsTotal (processGiftCodesBatched
        (fun t => if t.cdk = "A" then SettledOutcome.fulfilled ⟨true, "已成功领取", t.cdk, t.fid⟩
                  else SettledOutcome.rejected "boom")
        2 [⟨"1", "A"⟩, ⟨"1", "B"⟩, ⟨"2", "A"⟩]).2 = 3) ∧
    ((processGiftCodesSequential
        (fun t => if t.cdk = "A" then SettledOutcome.fulfilled ⟨true, "已成功领取", t.cdk, t.fid⟩
                  else SettledOutcome.rejected "boom")
        [⟨"1", "A"⟩, ⟨"1", "B"⟩, ⟨"2", "A"⟩]).1.length = 3 ∧
      statsTotal (processGiftCodesSequential
        (fun t => if t.cdk = "A" then SettledOutcome.fulfilled ⟨true, "已成功领取", t.cdk, t.fid⟩
                  else SettledOutcome.rejected "boom")
        [⟨"1", "A"⟩, ⟨"1", "B"⟩, ⟨"2", "A"⟩]).2 = 3) :=
  every_task_yields_one_result_and_counter
    (fun t => if t.cdk = "A" then SettledOutcome.fulfilled ⟨true, "已成功领取", t.cdk, t.fid⟩
              else SettledOutcome.rejected "boom")
    2 [⟨"1", "A"⟩, ⟨"1", "B"⟩, ⟨"2", "A"⟩] (by decide)

end GofCdk
